import Mathlib

/-!
Verification of the dbconnector library (connection pool, connector classes,
and the factory) against its specification.

The pool model follows `src/dbconnector/utils.py` (class `ConnectionPool`):
  - `_pool` is the append-only list of connectors ever created ("slots");
  - `_in_use` is the checked-out ledger, a Python dict from slot index to
    connector; Python dicts iterate in insertion order, so it is modelled as
    an association list in insertion order;
  - connectors are identified by a creation counter (`nextId`) standing for
    Python object identity; constructing a connector is modelled as always
    succeeding and is recorded by appending the fresh id to `pool`;
  - the driver liveness probe `_is_connection_active` is an external oracle
    `alive : Nat → Bool` supplied to each checkout (the Python code asks the
    driver handle, defaulting to alive when the driver has no probe);
  - `close_all` records the closed connectors in a `closed` trace field.

The connector-class model follows `src/dbconnector/connectors.py`.
-/

namespace DBConnector

/-- State of a `ConnectionPool` (src/dbconnector/utils.py, lines 54-69).
`pool` models `self._pool`, `inUse` models `self._in_use` (insertion-ordered
association list, as a Python dict iterates), `nextId` is the supply of fresh
connector identities, `closed` is the trace of connectors whose `close()`
was invoked by `close_all`. -/
structure PoolState where
  maxConnections : Nat
  pool : List Nat
  inUse : List (Nat × Nat)
  nextId : Nat
  closed : List Nat
deriving Repr, DecidableEq

/-- Error raised by the pool: `DatabaseConnectionError("Maximum connections
reached")` at utils.py line 88 (the spec calls this `PoolExhaustedError`). -/
inductive PoolErr where
  | maxConnectionsReached
deriving Repr, DecidableEq

/-- A freshly constructed pool: `_pool = []`, `_in_use = {}` (utils.py 65-66). -/
def initState (maxConnections : Nat) : PoolState :=
  { maxConnections := maxConnections, pool := [], inUse := [], nextId := 0,
    closed := [] }

/-- Python `d.pop(k)`: remove the entry with key `k` from the dict. -/
def dictPop (d : List (Nat × Nat)) (k : Nat) : List (Nat × Nat) :=
  d.filter (fun q => !(q.1 == k))

/-- Python `d[k] = v`: update in place when the key is present (keeping its
position in iteration order), otherwise append at the end. -/
def dictInsert (d : List (Nat × Nat)) (k v : Nat) : List (Nat × Nat) :=
  if d.any (fun q => q.1 == k) then
    d.map (fun q => if q.1 == k then (k, v) else q)
  else
    d ++ [(k, v)]

/-- `ConnectionPool._get_or_create_connection` (utils.py 109-118): when the
slot index already exists in `_pool`, reuse that connector instance;
otherwise construct a new connector (fresh identity) and append it. Either
way record it in `_in_use` under the slot index and return it. -/
def getOrCreateConnection (s : PoolState) (connId : Nat) : Nat × PoolState :=
  if h : connId < s.pool.length then
    let conn := s.pool.get ⟨connId, h⟩
    (conn, { s with inUse := dictInsert s.inUse connId conn })
  else
    let conn := s.nextId
    (conn, { s with pool := s.pool ++ [conn], nextId := s.nextId + 1,
                    inUse := dictInsert s.inUse connId conn })

/-- `ConnectionPool.get_connection` (utils.py 71-88): scan `_in_use` in
iteration order for the first entry whose connector fails the liveness
probe; if found, pop it and re-resolve that slot index. Otherwise, when
`len(_in_use) < max_connections`, resolve the fresh slot index
`len(_pool)`. Otherwise raise `DatabaseConnectionError`. -/
def getConnection (s : PoolState) (alive : Nat → Bool) :
    Except PoolErr (Nat × PoolState) :=
  match s.inUse.find? (fun q => !alive q.2) with
  | some p => .ok (getOrCreateConnection { s with inUse := dictPop s.inUse p.1 } p.1)
  | none =>
    if s.inUse.length < s.maxConnections then
      .ok (getOrCreateConnection s s.pool.length)
    else
      .error .maxConnectionsReached

/-- `ConnectionPool.release_connection` (utils.py 148-154): scan `_in_use`
in iteration order for the first entry whose connector is the given one
(Python object identity) and pop it; otherwise do nothing. -/
def releaseConnection (s : PoolState) (conn : Nat) : PoolState :=
  match s.inUse.find? (fun q => q.2 == conn) with
  | some p => { s with inUse := dictPop s.inUse p.1 }
  | none => s

/-- `ConnectionPool.close_all` (utils.py 164-170): call `close()` on every
connector in `_pool` (recorded in the `closed` trace), then reset `_pool`
and `_in_use` to empty. -/
def closeAll (s : PoolState) : PoolState :=
  { s with closed := s.closed ++ s.pool, pool := [], inUse := [] }

/-- Pool states reachable from a freshly constructed pool by any sequence of
checkout, release and close-all operations (a failing checkout leaves the
state unchanged, so it needs no constructor). -/
inductive Reachable : PoolState → Prop where
  | init (m : Nat) : Reachable (initState m)
  | checkout {s : PoolState} (alive : Nat → Bool) {c : Nat} {t : PoolState} :
      Reachable s → getConnection s alive = .ok (c, t) → Reachable t
  | release {s : PoolState} (c : Nat) : Reachable s → Reachable (releaseConnection s c)
  | closeStep {s : PoolState} : Reachable s → Reachable (closeAll s)

/-- Invariant maintained by every pool operation: the ledger is bounded by
`max_connections`, its keys and values are duplicate-free, every ledger
entry stores exactly the connector held at its slot index in `_pool`, and
`_pool` holds pairwise-distinct connector identities below the fresh-id
counter. -/
def PoolInv (s : PoolState) : Prop :=
  s.inUse.length ≤ s.maxConnections ∧
  (s.inUse.map Prod.fst).Nodup ∧
  (s.inUse.map Prod.snd).Nodup ∧
  (∀ p ∈ s.inUse, s.pool.get? p.1 = some p.2) ∧
  s.pool.Nodup ∧
  (∀ i ∈ s.pool, i < s.nextId)

/-- Connector classes defined in src/dbconnector/connectors.py. -/
inductive ConnectorClass where
  | mysql | asyncMysql | postgresql | asyncPostgresql | sqlite | oracle
  | mssql | mongodb | cassandra | elasticsearch | asyncElasticsearch
  | redis | asyncRedis
deriving Repr, DecidableEq

/-- Whether the class implements `connect` itself (every class in
connectors.py defines `connect`, overriding the abstract one). -/
def overridesConnect (c : ConnectorClass) : Bool :=
  match c with
  | _ => true

/-- Whether the class implements `close` itself. `BaseConnector.close` is an
`@abstractmethod`; in connectors.py the classes `SQLiteConnector` (120-129),
`OracleConnector` (131-138) and `MSSQLConnector` (140-154) define only
`connect` and never override `close`. -/
def overridesClose (c : ConnectorClass) : Bool :=
  match c with
  | .sqlite => false
  | .oracle => false
  | .mssql => false
  | _ => true

/-- Abstract methods of `BaseConnector` (connectors.py 25-33) that a class
leaves unimplemented. -/
def abstractMethodsUnimplemented (c : ConnectorClass) : List String :=
  (if overridesConnect c then [] else ["connect"]) ++
  (if overridesClose c then [] else ["close"])

/-- Python ABC semantics: instantiating a subclass of `BaseConnector(ABC)`
succeeds only when every abstract method is overridden; otherwise the
constructor raises `TypeError` before `__init__` runs. -/
def instantiateOk (c : ConnectorClass) : Bool :=
  (abstractMethodsUnimplemented c).isEmpty

/-- Underlying driver handle of a blocking connector, with the driver's
`is_connected` flag. -/
structure SyncHandle where
  isConnected : Bool
deriving Repr, DecidableEq

/-- `MySQLConnector.close` (connectors.py 59-61): `if self.connection and
self.connection.is_connected(): self.connection.close()`. Closing a live
handle clears its connected flag; otherwise nothing happens. -/
def mysqlClose (c : Option SyncHandle) : Option SyncHandle :=
  match c with
  | none => none
  | some h => if h.isConnected then some { isConnected := false } else some h

/-- A connector object as `BaseConnector.__init__` builds it: the
`connection` attribute is the driver handle id, or `none` while unset. -/
structure ConnectorObj where
  connection : Option Nat
deriving Repr, DecidableEq

/-- A blocking `connect` run to completion: sets `self.connection` to the
driver handle (e.g. `MySQLConnector.connect`, connectors.py 48-57, on
driver success). -/
def connectSync (driverHandle : Nat) : ConnectorObj :=
  { connection := some driverHandle }

/-- Calling an `async def connect` without awaiting it (what
`BaseConnector.__init__` line 23 does for the async classes): a coroutine
object is created and discarded, and the connector state does not change. -/
def connectAsyncUnawaited (c : ConnectorObj) : ConnectorObj :=
  c

/-- Awaiting `connect` on an async connector (e.g. `AsyncMySQLConnector.connect`,
connectors.py 66-75, on driver success): sets `self.connection`. -/
def awaitConnectAsync (c : ConnectorObj) (driverHandle : Nat) : ConnectorObj :=
  { c with connection := some driverHandle }

/-- `BaseConnector.__init__` (connectors.py 21-23) for a blocking class:
`self.connection = None` then `self.connect(**kwargs)` runs synchronously. -/
def baseConnectorInitSync (driverHandle : Nat) : ConnectorObj :=
  connectSync driverHandle

/-- `BaseConnector.__init__` (connectors.py 21-23) for a non-blocking class:
`self.connection = None`, then `self.connect(**kwargs)` merely creates an
unawaited coroutine, so `connection` stays `None` when the constructor
returns. -/
def baseConnectorInitAsync : ConnectorObj :=
  connectAsyncUnawaited { connection := none }

/-- The async-pool creation path `_get_or_create_async_connection`
(utils.py 120-130): construct the connector, then explicitly
`await conn.connect(**self._kwargs)`. -/
def getOrCreateAsyncConnector (driverHandle : Nat) : ConnectorObj :=
  awaitConnectAsync baseConnectorInitAsync driverHandle

/-- Python exceptions relevant to connect-time failures. `valueError` is
what `validate_connection_params` raises; `databaseConnectionError` is the
library's wrapper exception (the spec's `ConnectionError`). -/
inductive PyErr where
  | valueError (msg : String)
  | databaseConnectionError (msg : String)
deriving Repr, DecidableEq

deriving instance DecidableEq for Except

/-- `validate_connection_params` (utils.py 13-25): the required parameters
absent from `params`, in the order of the `required` list. -/
def missingParams (params required : List String) : List String :=
  required.filter (fun p => !params.contains p)

/-- `validate_connection_params` (utils.py 13-25): raises
`ValueError("Missing required parameters: ...")` naming the missing
parameters when any required parameter is absent. -/
def validate_connection_params (params required : List String) :
    Except PyErr Unit :=
  let missing := missingParams params required
  if missing.isEmpty then .ok ()
  else .error (.valueError ("Missing required parameters: " ++
    String.intercalate ", " missing))

/-- `MySQLConnector.connect` (connectors.py 48-57). The `try` block first
validates required parameters, then calls the native driver. The generic
`except Exception` handler catches the validation `ValueError` as well as
driver failures and re-raises `DatabaseConnectionError` with a
"MySQL connection error: " prefix. `driverOutcome` is the external result
the native `mysql.connector.connect` call would produce. The returned
`Bool` records whether that native call was attempted. -/
def mysqlConnect (params : List String) (driverOutcome : Except String Nat) :
    Except PyErr Nat × Bool :=
  match validate_connection_params params ["host", "user", "password"] with
  | .error (.valueError m) =>
      (.error (.databaseConnectionError ("MySQL connection error: " ++ m)), false)
  | .error e => (.error e, false)
  | .ok _ =>
    match driverOutcome with
    | .ok h => (.ok h, true)
    | .error m =>
        (.error (.databaseConnectionError ("MySQL connection error: " ++ m)), true)

/-- `PostgreSQLConnector.connect` (connectors.py 87-96), same shape as the
MySQL one with `database` additionally required and a
"PostgreSQL connection error: " prefix. -/
def postgresqlConnect (params : List String) (driverOutcome : Except String Nat) :
    Except PyErr Nat × Bool :=
  match validate_connection_params params ["host", "user", "password", "database"] with
  | .error (.valueError m) =>
      (.error (.databaseConnectionError ("PostgreSQL connection error: " ++ m)), false)
  | .error e => (.error e, false)
  | .ok _ =>
    match driverOutcome with
    | .ok h => (.ok h, true)
    | .error m =>
        (.error (.databaseConnectionError ("PostgreSQL connection error: " ++ m)), true)

/-- The `connector_map` dict built in the factory `connect`
(connectors.py 345-355), keyed in source order; the mysql, postgresql,
redis and elasticsearch entries select between distinct async and blocking
classes, the rest always use the single blocking class. -/
def connector_map (async_conn : Bool) : List (String × ConnectorClass) :=
  [("mysql", if async_conn then .asyncMysql else .mysql),
   ("postgresql", if async_conn then .asyncPostgresql else .postgresql),
   ("sqlite", .sqlite),
   ("oracle", .oracle),
   ("mssql", .mssql),
   ("mongodb", .mongodb),
   ("redis", if async_conn then .asyncRedis else .redis),
   ("cassandra", .cassandra),
   ("elasticsearch", if async_conn then .asyncElasticsearch else .elasticsearch)]

/-- Classes whose `connect`/`close` are `async def` coroutines. -/
def isAsyncVariant (c : ConnectorClass) : Bool :=
  match c with
  | .asyncMysql | .asyncPostgresql | .asyncRedis | .asyncElasticsearch => true
  | _ => false

/-- Python `db_type.lower()` as used by the factory, modelled on the code
points (the registry keys are ASCII, for which `Char.toLower` agrees with
Python's `str.lower`). -/
def pyLower (s : String) : String :=
  ⟨s.data.map Char.toLower⟩

/-- The factory `connect` (connectors.py 328-361): lower-case the kind, look
it up in `connector_map`, and on a miss raise
`ValueError("Unsupported database type: ...")` whose message lists the
supported kinds (Python interpolates `list(connector_map.keys())`). -/
def connectFactory (db_type : String) (async_conn : Bool) :
    Except PyErr ConnectorClass :=
  let t := pyLower db_type
  match (connector_map async_conn).lookup t with
  | some c => .ok c
  | none =>
      .error (.valueError ("Unsupported database type: " ++ t ++
        ". Supported types: [" ++
        String.intercalate ", " ((connector_map async_conn).map Prod.fst) ++ "]"))

theorem dictInsert_fresh {d : List (Nat × Nat)} {k v : Nat}
    (h : ∀ q ∈ d, q.1 ≠ k) : dictInsert d k v = d ++ [(k, v)] := by
  unfold dictInsert
  rw [if_neg]
  simp only [List.any_eq_true, beq_iff_eq, not_exists]
  intro q hq
  exact h q hq.1 hq.2

theorem mem_dictPop {d : List (Nat × Nat)} {k : Nat} {q : Nat × Nat}
    (h : q ∈ dictPop d k) : q ∈ d ∧ q.1 ≠ k := by
  unfold dictPop at h
  have h1 := List.mem_of_mem_filter h
  have h2 := List.of_mem_filter h
  simp only [Bool.not_eq_true', beq_eq_false_iff_ne, ne_eq] at h2
  exact ⟨h1, h2⟩

theorem dictPop_sublist (d : List (Nat × Nat)) (k : Nat) :
    (dictPop d k).Sublist d :=
  List.filter_sublist d

theorem length_dictPop {d : List (Nat × Nat)} {p : Nat × Nat}
    (hnd : (d.map Prod.fst).Nodup) (hp : p ∈ d) :
    (dictPop d p.1).length + 1 = d.length := by
  induction d with
  | nil => cases hp
  | cons a t ih =>
    simp only [List.map_cons, List.nodup_cons] at hnd
    rcases List.mem_cons.mp hp with rfl | hpt
    · have hall : ∀ q ∈ t, q.1 ≠ p.1 := by
        intro q hq hk
        exact hnd.1 (hk ▸ List.mem_map_of_mem Prod.fst hq)
      have : dictPop (p :: t) p.1 = t := by
        unfold dictPop
        simp only [List.filter_cons, beq_self_eq_true, Bool.not_true,
          if_false, Bool.false_eq_true, ite_false]
        exact List.filter_eq_self.mpr (by
          intro q hq
          simp only [Bool.not_eq_true', beq_eq_false_iff_ne, ne_eq]
          exact hall q hq)
      rw [this]
      simp
    · have hak : a.1 ≠ p.1 := by
        intro hk
        exact hnd.1 (hk ▸ List.mem_map_of_mem Prod.fst hpt)
      have : dictPop (a :: t) p.1 = a :: dictPop t p.1 := by
        unfold dictPop
        simp only [List.filter_cons]
        rw [if_pos]
        simp only [Bool.not_eq_true', beq_eq_false_iff_ne, ne_eq]
        exact hak
      rw [this]
      simp only [List.length_cons]
      rw [ih hnd.2 hpt]

theorem key_lt_pool_length {s : PoolState}
    (hinv : ∀ p ∈ s.inUse, s.pool.get? p.1 = some p.2) :
    ∀ p ∈ s.inUse, p.1 < s.pool.length := by
  intro p hp
  have := hinv p hp
  exact (List.get?_eq_some.mp this).1

theorem value_mem_pool {s : PoolState}
    (hinv : ∀ p ∈ s.inUse, s.pool.get? p.1 = some p.2) :
    ∀ p ∈ s.inUse, p.2 ∈ s.pool := by
  intro p hp
  exact List.get?_mem (hinv p hp)

theorem poolInv_init (m : Nat) : PoolInv (initState m) := by
  refine ⟨Nat.zero_le m, ?_, ?_, ?_, ?_, ?_⟩ <;> simp [initState]

theorem poolInv_getConnection {s : PoolState} {alive : Nat → Bool} {c : Nat}
    {t : PoolState} (h : PoolInv s)
    (hc : getConnection s alive = .ok (c, t)) : PoolInv t := by
  obtain ⟨h1, h2, h3, h4, h5, h6⟩ := h
  unfold getConnection at hc
  cases hfind : s.inUse.find? (fun q => !alive q.2) with
  | some p =>
    rw [hfind] at hc
    have hp : p ∈ s.inUse := List.mem_of_find?_eq_some hfind
    have hget : s.pool.get? p.1 = some p.2 := h4 p hp
    have hlt : p.1 < s.pool.length := (List.get?_eq_some.mp hget).1
    have hgetv : s.pool.get ⟨p.1, hlt⟩ = p.2 := (List.get?_eq_some.mp hget).2
    have hfresh : ∀ q ∈ dictPop s.inUse p.1, q.1 ≠ p.1 :=
      fun q hq => (mem_dictPop hq).2
    have hct : getOrCreateConnection { s with inUse := dictPop s.inUse p.1 } p.1
        = (c, t) := by
      injection hc
    unfold getOrCreateConnection at hct
    rw [dif_pos hlt] at hct
    have ht : t = { s with inUse := dictPop s.inUse p.1 ++ [(p.1, p.2)] } := by
      have := (Prod.mk.injEq _ _ _ _).mp hct
      rw [← this.2, dictInsert_fresh hfresh, hgetv]
    subst ht
    have hsub := dictPop_sublist s.inUse p.1
    have hlen : (dictPop s.inUse p.1).length + 1 = s.inUse.length :=
      length_dictPop h2 hp
    refine ⟨?_, ?_, ?_, ?_, h5, h6⟩
    · simpa [hlen] using h1
    · simp only [List.map_append, List.map_cons, List.map_nil,
        List.nodup_append]
      refine ⟨h2.sublist (hsub.map Prod.fst), List.nodup_singleton _, ?_⟩
      intro k hk hk1
      simp only [List.mem_singleton] at hk1
      obtain ⟨q, hq, rfl⟩ := List.mem_map.mp hk
      exact (mem_dictPop hq).2 hk1
    · simp only [List.map_append, List.map_cons, List.map_nil,
        List.nodup_append]
      refine ⟨h3.sublist (hsub.map Prod.snd), List.nodup_singleton _, ?_⟩
      intro v hv hv1
      simp only [List.mem_singleton] at hv1
      obtain ⟨q, hq, rfl⟩ := List.mem_map.mp hv
      have hq' : q ∈ s.inUse := (mem_dictPop hq).1
      have := List.inj_on_of_nodup_map h3 hq' hp hv1
      exact (mem_dictPop hq).2 (by rw [this])
    · intro q hq
      rcases List.mem_append.mp hq with hql | hqr
      · exact h4 q (mem_dictPop hql).1
      · simp only [List.mem_singleton] at hqr
        subst hqr
        exact hget
  | none =>
    rw [hfind] at hc
    by_cases hlen : s.inUse.length < s.maxConnections
    · rw [if_pos hlen] at hc
      have hct : getOrCreateConnection s s.pool.length = (c, t) := by
        injection hc
      unfold getOrCreateConnection at hct
      rw [dif_neg (lt_irrefl s.pool.length)] at hct
      have hfresh : ∀ q ∈ s.inUse, q.1 ≠ s.pool.length := by
        intro q hq hk
        exact absurd (key_lt_pool_length h4 q hq) (by rw [hk]; exact lt_irrefl _)
      have ht : t = { s with pool := s.pool ++ [s.nextId], nextId := s.nextId + 1, inUse := s.inUse ++ [(s.pool.length, s.nextId)] } := by
        have := (Prod.mk.injEq _ _ _ _).mp hct
        rw [← this.2, dictInsert_fresh hfresh]
      subst ht
      refine ⟨?_, ?_, ?_, ?_, ?_, ?_⟩
      · simpa using hlen
      · simp only [List.map_append, List.map_cons, List.map_nil,
          List.nodup_append]
        refine ⟨h2, List.nodup_singleton _, ?_⟩
        intro k hk hk1
        simp only [List.mem_singleton] at hk1
        obtain ⟨q, hq, rfl⟩ := List.mem_map.mp hk
        exact hfresh q hq hk1
      · simp only [List.map_append, List.map_cons, List.map_nil,
          List.nodup_append]
        refine ⟨h3, List.nodup_singleton _, ?_⟩
        intro v hv hv1
        simp only [List.mem_singleton] at hv1
        obtain ⟨q, hq, rfl⟩ := List.mem_map.mp hv
        have : q.2 ∈ s.pool := value_mem_pool h4 q hq
        exact absurd (h6 _ this) (by rw [hv1]; exact lt_irrefl _)
      · intro q hq
        rcases List.mem_append.mp hq with hql | hqr
        · have hklt : q.1 < s.pool.length := key_lt_pool_length h4 q hql
          rw [List.get?_append hklt]
          exact h4 q hql
        · simp only [List.mem_singleton] at hqr
          subst hqr
          exact List.get?_concat_length s.pool s.nextId
      · simp only [List.nodup_append]
        refine ⟨h5, List.nodup_singleton _, ?_⟩
        intro i hi hi1
        simp only [List.mem_singleton] at hi1
        exact absurd (h6 i hi) (by rw [hi1]; exact lt_irrefl _)
      · intro i hi
        rcases List.mem_append.mp hi with hil | hir
        · exact Nat.lt_succ_of_lt (h6 i hil)
        · simp only [List.mem_singleton] at hir
          subst hir
          exact Nat.lt_succ_self _
    · rw [if_neg hlen] at hc
      exact absurd hc (by simp)

theorem poolInv_release {s : PoolState} (c : Nat) (h : PoolInv s) :
    PoolInv (releaseConnection s c) := by
  obtain ⟨h1, h2, h3, h4, h5, h6⟩ := h
  unfold releaseConnection
  cases hfind : s.inUse.find? (fun q => q.2 == c) with
  | some p =>
    have hsub := dictPop_sublist s.inUse p.1
    refine ⟨?_, ?_, ?_, ?_, h5, h6⟩
    · exact le_trans (hsub.length_le) h1
    · exact h2.sublist (hsub.map Prod.fst)
    · exact h3.sublist (hsub.map Prod.snd)
    · intro q hq
      exact h4 q (mem_dictPop hq).1
  | none =>
    exact ⟨h1, h2, h3, h4, h5, h6⟩

theorem poolInv_closeAll {s : PoolState} (_h : PoolInv s) :
    PoolInv (closeAll s) := by
  refine ⟨Nat.zero_le _, ?_, ?_, ?_, ?_, ?_⟩ <;> simp [closeAll]

theorem reachable_poolInv {s : PoolState} (h : Reachable s) : PoolInv s := by
  induction h with
  | init m => exact poolInv_init m
  | checkout alive hr heq ih => exact poolInv_getConnection ih heq
  | release c hs ih => exact poolInv_release c ih
  | closeStep hs ih => exact poolInv_closeAll ih

theorem getConnection_dead_spec {s : PoolState} {alive : Nat → Bool}
    {p : Nat × Nat}
    (h4 : ∀ q ∈ s.inUse, s.pool.get? q.1 = some q.2)
    (hf : s.inUse.find? (fun q => !alive q.2) = some p) :
    getConnection s alive =
      .ok (p.2, { s with inUse := dictPop s.inUse p.1 ++ [(p.1, p.2)] }) := by
  have hp := List.mem_of_find?_eq_some hf
  have hget := h4 p hp
  have hlt : p.1 < s.pool.length := (List.get?_eq_some.mp hget).1
  have hgetv : s.pool.get ⟨p.1, hlt⟩ = p.2 := (List.get?_eq_some.mp hget).2
  have hfresh : ∀ q ∈ dictPop s.inUse p.1, q.1 ≠ p.1 :=
    fun q hq => (mem_dictPop hq).2
  unfold getConnection
  rw [hf]
  unfold getOrCreateConnection
  dsimp only
  rw [dif_pos hlt]
  rw [dictInsert_fresh hfresh]
  simp only [hgetv]

theorem getConnection_fresh_spec {s : PoolState} {alive : Nat → Bool}
    (h4 : ∀ q ∈ s.inUse, s.pool.get? q.1 = some q.2)
    (hf : s.inUse.find? (fun q => !alive q.2) = none)
    (hlen : s.inUse.length < s.maxConnections) :
    getConnection s alive =
      .ok (s.nextId, { s with pool := s.pool ++ [s.nextId], nextId := s.nextId + 1, inUse := s.inUse ++ [(s.pool.length, s.nextId)] }) := by
  have hfresh : ∀ q ∈ s.inUse, q.1 ≠ s.pool.length := by
    intro q hq hk
    exact absurd (key_lt_pool_length h4 q hq) (by rw [hk]; exact lt_irrefl _)
  unfold getConnection
  rw [hf]
  dsimp only
  rw [if_pos hlen]
  unfold getOrCreateConnection
  dsimp only
  rw [dif_neg (lt_irrefl s.pool.length)]
  rw [dictInsert_fresh hfresh]

theorem getConnection_length_cases {s : PoolState} {alive : Nat → Bool}
    {c : Nat} {t : PoolState} (h : PoolInv s)
    (hc : getConnection s alive = .ok (c, t)) :
    t.inUse.length = s.inUse.length ∨
    (s.inUse.length < s.maxConnections ∧
      t.inUse.length = s.inUse.length + 1) := by
  obtain ⟨h1, h2, h3, h4, h5, h6⟩ := h
  cases hfind : s.inUse.find? (fun q => !alive q.2) with
  | some p =>
    left
    rw [getConnection_dead_spec h4 hfind] at hc
    rw [Except.ok.injEq, Prod.mk.injEq] at hc
    obtain ⟨hc1, hc2⟩ := hc
    have hp := List.mem_of_find?_eq_some hfind
    rw [← hc2]
    simpa using length_dictPop h2 hp
  | none =>
    by_cases hlen : s.inUse.length < s.maxConnections
    · right
      rw [getConnection_fresh_spec h4 hfind hlen] at hc
      rw [Except.ok.injEq, Prod.mk.injEq] at hc
      obtain ⟨hc1, hc2⟩ := hc
      rw [← hc2]
      exact ⟨hlen, by simp⟩
    · unfold getConnection at hc
      rw [hfind, if_neg hlen] at hc
      exact absurd hc (by simp)

theorem release_of_not_mem {s : PoolState} {c : Nat}
    (h : c ∉ s.inUse.map Prod.snd) : releaseConnection s c = s := by
  unfold releaseConnection
  have hfind : s.inUse.find? (fun q => q.2 == c) = none := by
    rw [List.find?_eq_none]
    intro q hq
    simp only [beq_iff_eq]
    intro hqc
    exact h (hqc ▸ List.mem_map_of_mem Prod.snd hq)
  rw [hfind]

/-- C1: for every pool state reachable by checkout, release and close-all,
the checked-out ledger `_in_use` has at most `max_connections` entries.
Moreover a successful checkout either keeps the ledger size unchanged
(it removed a dead entry and re-recorded the same slot) or adds one entry,
which it does only when the ledger size is strictly below
`max_connections`. -/
theorem checked_out_le_max (s : PoolState) (h : Reachable s) :
    s.inUse.length ≤ s.maxConnections ∧
    ∀ (alive : Nat → Bool) (c : Nat) (t : PoolState),
      getConnection s alive = .ok (c, t) →
      t.inUse.length = s.inUse.length ∨
      (s.inUse.length < s.maxConnections ∧
        t.inUse.length = s.inUse.length + 1) := by
  have hinv := reachable_poolInv h
  exact ⟨hinv.1, fun alive c t hc => getConnection_length_cases hinv hc⟩

theorem checked_out_le_max_witness :
    ({ maxConnections := 2, pool := [0, 1], inUse := [(0, 0), (1, 1)], nextId := 2, closed := [] } : PoolState).inUse.length ≤
      ({ maxConnections := 2, pool := [0, 1], inUse := [(0, 0), (1, 1)], nextId := 2, closed := [] } : PoolState).maxConnections :=
  (checked_out_le_max _
    (Reachable.checkout (fun _ => true)
      (Reachable.checkout (fun _ => true) (Reachable.init 2) rfl) rfl)).1

/-- C2: from a freshly constructed pool with `max_connections = 2` and an
all-alive liveness probe, the first two checkouts succeed and return the
distinct connectors 0 and 1, recorded at slot indices 0 and 1, and a third
checkout fails at once with the maximum-connections error (the spec's
`PoolExhaustedError`) instead of blocking. -/
theorem two_checkouts_then_exhausted :
    getConnection (initState 2) (fun _ => true) =
      .ok (0, { maxConnections := 2, pool := [0], inUse := [(0, 0)], nextId := 1, closed := [] }) ∧
    getConnection { maxConnections := 2, pool := [0], inUse := [(0, 0)], nextId := 1, closed := [] } (fun _ => true) =
      .ok (1, { maxConnections := 2, pool := [0, 1], inUse := [(0, 0), (1, 1)], nextId := 2, closed := [] }) ∧
    (0 : Nat) ≠ 1 ∧
    getConnection { maxConnections := 2, pool := [0, 1], inUse := [(0, 0), (1, 1)], nextId := 2, closed := [] }
      (fun _ => true) = .error .maxConnectionsReached :=
  ⟨rfl, rfl, by decide, rfl⟩

/-- C3 counterexample: with connectors 0 and 1 checked out of a
`max_connections = 2` pool at slot indices 0 and 1, releasing connector 0
and checking out again returns the brand-new connector 2 recorded at the
fresh slot index 2 — not the connector 0 stored at the released slot index
0 — and the slots sequence grows from length 2 to length 3. -/
theorem released_slot_checkout_cex :
    releaseConnection { maxConnections := 2, pool := [0, 1], inUse := [(0, 0), (1, 1)], nextId := 2, closed := [] } 0 =
      { maxConnections := 2, pool := [0, 1], inUse := [(1, 1)], nextId := 2, closed := [] } ∧
    getConnection { maxConnections := 2, pool := [0, 1], inUse := [(1, 1)], nextId := 2, closed := [] } (fun _ => true) =
      .ok (2, { maxConnections := 2, pool := [0, 1, 2], inUse := [(1, 1), (2, 2)], nextId := 3, closed := [] }) ∧
    (2 : Nat) ≠ 0 ∧
    ([0, 1, 2] : List Nat).length = 3 :=
  ⟨rfl, rfl, by decide, rfl⟩

/-- C3 amended: in a `max_connections = 2` pool with two checked-out alive
connectors, after releasing either one the next checkout succeeds, but it
constructs a new connector recorded at the fresh slot index
`len(slots) = 2`, growing the slots sequence to a new index instead of
reusing the released slot's index. -/
theorem released_slot_checkout_grows :
    getConnection (releaseConnection { maxConnections := 2, pool := [0, 1], inUse := [(0, 0), (1, 1)], nextId := 2, closed := [] } 0)
      (fun _ => true) =
      .ok (2, { maxConnections := 2, pool := [0, 1, 2], inUse := [(1, 1), (2, 2)], nextId := 3, closed := [] }) ∧
    getConnection (releaseConnection { maxConnections := 2, pool := [0, 1], inUse := [(0, 0), (1, 1)], nextId := 2, closed := [] } 1)
      (fun _ => true) =
      .ok (2, { maxConnections := 2, pool := [0, 1, 2], inUse := [(0, 0), (2, 2)], nextId := 3, closed := [] }) :=
  ⟨rfl, rfl⟩

/-- C4 counterexample: connector 0 is checked out at slot 0 and the
liveness probe reports it dead, yet the next checkout returns that very
connector 0 unchanged: the state is identical before and after (same
slots, same ledger, no new connector constructed), so the dead connection
is handed back to the caller as-is rather than recycled into a live one. -/
theorem dead_checkout_cex :
    getConnection { maxConnections := 2, pool := [0], inUse := [(0, 0)], nextId := 1, closed := [] } (fun _ => false) =
      .ok (0, { maxConnections := 2, pool := [0], inUse := [(0, 0)], nextId := 1, closed := [] }) ∧
    (fun (_ : Nat) => false) 0 = false :=
  ⟨rfl, rfl⟩

/-- C4 amended: when the checkout scan finds a checked-out entry whose
connector fails the liveness probe, it removes that entry from the ledger,
re-records the same slot index, and returns the very connector already
stored at that slot index in `slots` — the dead connection itself; no
replacement connector is constructed (`slots` and the fresh-id counter are
unchanged in the returned state). -/
theorem dead_entry_recycle_amended (s : PoolState) (h : Reachable s)
    (alive : Nat → Bool) (p : Nat × Nat)
    (hf : s.inUse.find? (fun q => !alive q.2) = some p) :
    getConnection s alive =
      .ok (p.2, { s with inUse := dictPop s.inUse p.1 ++ [(p.1, p.2)] }) ∧
    alive p.2 = false ∧
    s.pool.get? p.1 = some p.2 := by
  have hinv := reachable_poolInv h
  have h4 := hinv.2.2.2.1
  refine ⟨getConnection_dead_spec h4 hf, ?_, h4 p (List.mem_of_find?_eq_some hf)⟩
  have := List.find?_some hf
  simpa using this

theorem dead_entry_recycle_amended_witness :
    getConnection { maxConnections := 2, pool := [0], inUse := [(0, 0)], nextId := 1, closed := [] } (fun _ => false) =
      .ok ((0, 0).2, { maxConnections := 2, pool := [0], inUse := dictPop [(0, 0)] (0, 0).1 ++ [((0, 0).1, (0, 0).2)], nextId := 1, closed := [] }) ∧
    (fun (_ : Nat) => false) (0, 0).2 = false ∧
    ([0] : List Nat).get? (0, 0).1 = some (0, 0).2 :=
  dead_entry_recycle_amended _
    (Reachable.checkout (fun _ => true) (Reachable.init 2) rfl)
    (fun _ => false) (0, 0) rfl

/-- C5: releasing a connector that is not in the checked-out ledger leaves
the pool state unchanged (a silent no-op — the model function is total, as
the source loop raises nothing), and on any reachable state release is
idempotent: a second release of the same connector is a no-op. -/
theorem release_idempotent (s : PoolState) (h : Reachable s) (c : Nat) :
    (c ∉ s.inUse.map Prod.snd → releaseConnection s c = s) ∧
    releaseConnection (releaseConnection s c) c = releaseConnection s c := by
  have hinv := reachable_poolInv h
  have h3 := hinv.2.2.1
  refine ⟨fun hnm => release_of_not_mem hnm, ?_⟩
  cases hfind : s.inUse.find? (fun q => q.2 == c) with
  | some p =>
    have hp : p ∈ s.inUse := List.mem_of_find?_eq_some hfind
    have hpc : p.2 = c := by simpa using List.find?_some hfind
    have hrel : releaseConnection s c = { s with inUse := dictPop s.inUse p.1 } := by
      unfold releaseConnection
      rw [hfind]
    rw [hrel]
    apply release_of_not_mem
    intro hmem
    obtain ⟨q, hq, hqc⟩ := List.mem_map.mp hmem
    have hq' : q ∈ s.inUse := (mem_dictPop hq).1
    have : q = p := List.inj_on_of_nodup_map h3 hq' hp (by rw [hqc, hpc])
    exact (mem_dictPop hq).2 (by rw [this])
  | none =>
    have hrel : releaseConnection s c = s := by
      unfold releaseConnection
      rw [hfind]
    rw [hrel]
    exact hrel

theorem release_idempotent_witness :
    ((0 : Nat) ∉ (({ maxConnections := 2, pool := [0, 1], inUse := [(0, 0), (1, 1)], nextId := 2, closed := [] } : PoolState)).inUse.map Prod.snd →
      releaseConnection { maxConnections := 2, pool := [0, 1], inUse := [(0, 0), (1, 1)], nextId := 2, closed := [] } 0 =
      { maxConnections := 2, pool := [0, 1], inUse := [(0, 0), (1, 1)], nextId := 2, closed := [] }) ∧
    releaseConnection (releaseConnection { maxConnections := 2, pool := [0, 1], inUse := [(0, 0), (1, 1)], nextId := 2, closed := [] } 0) 0 =
      releaseConnection { maxConnections := 2, pool := [0, 1], inUse := [(0, 0), (1, 1)], nextId := 2, closed := [] } 0 :=
  release_idempotent _
    (Reachable.checkout (fun _ => true)
      (Reachable.checkout (fun _ => true) (Reachable.init 2) rfl) rfl) 0

/-- C6: `close_all` closes every connector in the slots sequence —
including the checked-out ones, whose connectors all live in `slots` — and
empties both `slots` and the ledger, leaving the pool observably identical
to a freshly constructed one; the next checkout (with any liveness probe)
constructs a new connector and records it at slot index 0. -/
theorem close_all_resets (s : PoolState) (h : Reachable s)
    (hm : 0 < s.maxConnections) :
    (closeAll s).pool = [] ∧
    (closeAll s).inUse = [] ∧
    (closeAll s).closed = s.closed ++ s.pool ∧
    (∀ p ∈ s.inUse, p.2 ∈ (closeAll s).closed) ∧
    (∀ alive : Nat → Bool, getConnection (closeAll s) alive =
      .ok (s.nextId, { maxConnections := s.maxConnections, pool := [s.nextId], inUse := [(0, s.nextId)], nextId := s.nextId + 1, closed := s.closed ++ s.pool })) := by
  have hinv := reachable_poolInv h
  have h4 := hinv.2.2.2.1
  refine ⟨rfl, rfl, rfl, ?_, ?_⟩
  · intro p hp
    have : p.2 ∈ s.pool := value_mem_pool h4 p hp
    exact List.mem_append_right _ this
  · intro alive
    have hf : (closeAll s).inUse.find? (fun q => !alive q.2) = none := rfl
    have h4' : ∀ q ∈ (closeAll s).inUse, (closeAll s).pool.get? q.1 = some q.2 := by
      intro q hq
      cases hq
    have hlen : (closeAll s).inUse.length < (closeAll s).maxConnections := hm
    have := getConnection_fresh_spec h4' hf hlen
    simpa [closeAll, dictInsert] using this

theorem close_all_resets_witness :
    (closeAll { maxConnections := 2, pool := [0, 1], inUse := [(0, 0), (1, 1)], nextId := 2, closed := [] }).pool = [] ∧
    (closeAll { maxConnections := 2, pool := [0, 1], inUse := [(0, 0), (1, 1)], nextId := 2, closed := [] }).inUse = [] ∧
    (closeAll { maxConnections := 2, pool := [0, 1], inUse := [(0, 0), (1, 1)], nextId := 2, closed := [] }).closed =
      [] ++ [0, 1] ∧
    (∀ p ∈ (({ maxConnections := 2, pool := [0, 1], inUse := [(0, 0), (1, 1)], nextId := 2, closed := [] } : PoolState)).inUse,
      p.2 ∈ (closeAll { maxConnections := 2, pool := [0, 1], inUse := [(0, 0), (1, 1)], nextId := 2, closed := [] }).closed) ∧
    (∀ alive : Nat → Bool,
      getConnection (closeAll { maxConnections := 2, pool := [0, 1], inUse := [(0, 0), (1, 1)], nextId := 2, closed := [] }) alive =
      .ok (2, { maxConnections := 2, pool := [2], inUse := [(0, 2)], nextId := 3, closed := [] ++ [0, 1] })) :=
  close_all_resets _
    (Reachable.checkout (fun _ => true)
      (Reachable.checkout (fun _ => true) (Reachable.init 2) rfl) rfl)
    (by decide)

/-- C7: the claim (every connector kind's `close()` is a non-raising,
idempotent no-op in every state) matches the spec and the repository's own
tests, but the code breaks it: `SQLiteConnector`, `OracleConnector` and
`MSSQLConnector` never override the abstract `close`, so under Python ABC
semantics constructing any of them raises `TypeError` — the tests
`test_sqlite_connector_success` and `test_connector_context_manager`
construct a `SQLiteConnector` and call `close()` on it, expecting success.
For the classes that do implement `close`, the MySQL implementation is an
idempotent no-op on an already-closed or never-connected handle. -/
theorem sqlite_connector_missing_close :
    instantiateOk ConnectorClass.sqlite = false ∧
    abstractMethodsUnimplemented ConnectorClass.sqlite = ["close"] ∧
    instantiateOk ConnectorClass.oracle = false ∧
    instantiateOk ConnectorClass.mssql = false ∧
    instantiateOk ConnectorClass.mysql = true ∧
    (∀ c : Option SyncHandle, mysqlClose (mysqlClose c) = mysqlClose c) := by
  refine ⟨rfl, rfl, rfl, rfl, rfl, ?_⟩
  intro c
  cases c with
  | none => rfl
  | some h =>
    cases hb : h.isConnected <;> simp [mysqlClose, hb]

/-- C8 counterexample: constructing a non-blocking connector leaves
`self.connection` unset: `BaseConnector.__init__` invokes the `async def
connect` without awaiting it, so only an unused coroutine is created and
the handle stays `None` when the constructor returns — a
constructed-but-disconnected Connector is observable, contrary to the
claim that every variant is created and connected in one step. -/
theorem async_init_unconnected_cex :
    baseConnectorInitAsync.connection = none :=
  rfl

/-- C8 amended: blocking connectors are created and connected in one step
(the constructor runs `connect` to completion, so the handle is set when it
returns), but non-blocking connectors come out of the constructor with the
handle unset, and the connection is only established by an explicitly
awaited `connect` — which the pool's `_get_or_create_async_connection`
performs right after constructing the connector. -/
theorem constructor_connects_amended :
    (∀ h : Nat, (baseConnectorInitSync h).connection = some h) ∧
    baseConnectorInitAsync.connection = none ∧
    (∀ h : Nat, (getOrCreateAsyncConnector h).connection = some h) :=
  ⟨fun _ => rfl, rfl, fun _ => rfl⟩

/-- C9 counterexample: calling `MySQLConnector.connect` with no parameters
fails before the native driver call is attempted (the driver-attempted flag
is `false`), and the message names the missing fields — but the surfaced
exception is `DatabaseConnectionError` (the spec's `ConnectionError`)
wrapping the validation message, because the generic `except Exception`
handler catches the `ValueError` raised by `validate_connection_params`;
it is not surfaced as the validation error itself. -/
theorem missing_params_wrapped_cex :
    mysqlConnect [] (.ok 0) =
      (.error (.databaseConnectionError "MySQL connection error: Missing required parameters: host, user, password"), false) ∧
    mysqlConnect [] (.ok 0) ≠
      (.error (.valueError "Missing required parameters: host, user, password"), false) :=
  ⟨rfl, by decide⟩

/-- C9 amended: when a required connection field for the kind is absent
(host/user/password for mysql, additionally database for postgresql), the
connect call fails before any native driver connect is attempted, with a
`DatabaseConnectionError` wrapping the validation message that names the
missing fields. -/
theorem missing_params_fail_fast (params : List String)
    (d : Except String Nat) :
    (missingParams params ["host", "user", "password"] ≠ [] →
      mysqlConnect params d =
        (.error (.databaseConnectionError ("MySQL connection error: Missing required parameters: " ++ String.intercalate ", " (missingParams params ["host", "user", "password"]))), false)) ∧
    (missingParams params ["host", "user", "password", "database"] ≠ [] →
      postgresqlConnect params d =
        (.error (.databaseConnectionError ("PostgreSQL connection error: Missing required parameters: " ++ String.intercalate ", " (missingParams params ["host", "user", "password", "database"]))), false)) := by
  constructor
  · intro hm
    have hne : (missingParams params ["host", "user", "password"]).isEmpty = false := by
      simpa using hm
    unfold mysqlConnect validate_connection_params
    rw [if_neg (by simp [hne])]
    rfl
  · intro hm
    have hne : (missingParams params ["host", "user", "password", "database"]).isEmpty = false := by
      simpa using hm
    unfold postgresqlConnect validate_connection_params
    rw [if_neg (by simp [hne])]
    rfl


theorem missing_params_fail_fast_witness :
    mysqlConnect [] (.ok 0) =
      (.error (.databaseConnectionError ("MySQL connection error: Missing required parameters: " ++ String.intercalate ", " (missingParams [] ["host", "user", "password"]))), false) ∧
    postgresqlConnect [] (.ok 0) =
      (.error (.databaseConnectionError ("PostgreSQL connection error: Missing required parameters: " ++ String.intercalate ", " (missingParams [] ["host", "user", "password", "database"]))), false) :=
  ⟨(missing_params_fail_fast [] (.ok 0)).1 (by decide),
   (missing_params_fail_fast [] (.ok 0)).2 (by decide)⟩

/-- C10: the factory maps sqlite, oracle, mssql, mongodb and cassandra to
their single blocking class for either value of the async flag; mysql,
postgresql, redis and elasticsearch get distinct blocking and non-blocking
classes selected by the flag; the registry's keys are exactly the nine
supported kinds; and an unknown kind fails with
`ValueError("Unsupported database type: ...")` (the spec's
`UnsupportedKindError`) whose message interpolates the supported kinds. -/
theorem factory_variant_selection :
    (∀ b : Bool,
      connectFactory "sqlite" b = .ok .sqlite ∧
      connectFactory "oracle" b = .ok .oracle ∧
      connectFactory "mssql" b = .ok .mssql ∧
      connectFactory "mongodb" b = .ok .mongodb ∧
      connectFactory "cassandra" b = .ok .cassandra ∧
      isAsyncVariant ConnectorClass.sqlite = false ∧
      isAsyncVariant ConnectorClass.oracle = false ∧
      isAsyncVariant ConnectorClass.mssql = false ∧
      isAsyncVariant ConnectorClass.mongodb = false ∧
      isAsyncVariant ConnectorClass.cassandra = false) ∧
    (connectFactory "mysql" false = .ok .mysql ∧
      connectFactory "mysql" true = .ok .asyncMysql ∧
      connectFactory "postgresql" false = .ok .postgresql ∧
      connectFactory "postgresql" true = .ok .asyncPostgresql ∧
      connectFactory "redis" false = .ok .redis ∧
      connectFactory "redis" true = .ok .asyncRedis ∧
      connectFactory "elasticsearch" false = .ok .elasticsearch ∧
      connectFactory "elasticsearch" true = .ok .asyncElasticsearch ∧
      ConnectorClass.mysql ≠ .asyncMysql ∧
      ConnectorClass.postgresql ≠ .asyncPostgresql ∧
      ConnectorClass.redis ≠ .asyncRedis ∧
      ConnectorClass.elasticsearch ≠ .asyncElasticsearch) ∧
    (∀ b : Bool, (connector_map b).map Prod.fst =
      ["mysql", "postgresql", "sqlite", "oracle", "mssql", "mongodb", "redis", "cassandra", "elasticsearch"]) ∧
    (∀ (t : String) (b : Bool),
      pyLower t ∉ (connector_map b).map Prod.fst →
      connectFactory t b =
        .error (.valueError ("Unsupported database type: " ++ pyLower t ++ ". Supported types: [" ++ String.intercalate ", " ((connector_map b).map Prod.fst) ++ "]"))) := by
  refine ⟨?_, ?_, ?_, ?_⟩
  · intro b
    cases b <;> exact ⟨rfl, rfl, rfl, rfl, rfl, rfl, rfl, rfl, rfl, rfl⟩
  · exact ⟨rfl, rfl, rfl, rfl, rfl, rfl, rfl, rfl, by decide, by decide, by decide, by decide⟩
  · intro b
    cases b <;> rfl
  · intro t b h
    simp only [connector_map, List.map_cons, List.map_nil, List.mem_cons, List.not_mem_nil, or_false, not_or] at h
    obtain ⟨n1, n2, n3, n4, n5, n6, n7, n8, n9⟩ := h
    have b1 := beq_eq_false_iff_ne.mpr n1
    have b2 := beq_eq_false_iff_ne.mpr n2
    have b3 := beq_eq_false_iff_ne.mpr n3
    have b4 := beq_eq_false_iff_ne.mpr n4
    have b5 := beq_eq_false_iff_ne.mpr n5
    have b6 := beq_eq_false_iff_ne.mpr n6
    have b7 := beq_eq_false_iff_ne.mpr n7
    have b8 := beq_eq_false_iff_ne.mpr n8
    have b9 := beq_eq_false_iff_ne.mpr n9
    unfold connectFactory
    cases b <;>
      simp [connector_map, List.lookup, b1, b2, b3, b4, b5, b6, b7, b8, b9]

theorem factory_variant_selection_witness :
    connectFactory "unsupported_db" false =
      .error (.valueError ("Unsupported database type: " ++ pyLower "unsupported_db" ++ ". Supported types: [" ++ String.intercalate ", " ((connector_map false).map Prod.fst) ++ "]")) :=
  factory_variant_selection.2.2.2 "unsupported_db" false (by decide)

end DBConnector
